import Mathlib

set_option maxHeartbeats 1000000
set_option maxRecDepth 4000

/-!
Shallow embedding of the client-side audio capture and submission lifecycle
of the speech-coaching web application, together with the analyze API route.

The embedding follows the source files directly:
* `HomeState` and the operations on it mirror the `Home` component of
  src/app/page.js (first page variant): `startRecording`, the recorder
  event handlers `ondataavailable` / `onstop` / `onerror`, `stopRecording`,
  `analyzeRecording` (split into its synchronous guard and its completion
  handlers) and `resetRecording`.
* `HookState` and the `hook*` operations mirror src/app/hooks/useAudioRecorder.js.
* `AnalysisState` and `handleAnalysisComplete` mirror the `handleAnalysis`
  error mapping of the third page variant in src/app/page.js.
* `postAnalyze` mirrors the `POST` handler of the analyze API route
  (src/unnamed/part_000).

Binary data is modelled as `List Nat` (one entry per byte); the capture
device stream is a list of tracks, each a `Bool` that is `true` while the
track is live and becomes `false` when `track.stop()` is called; object
URLs are natural-number handles.  Externally visible resource effects
(URL creation/revocation, track stops) are recorded in an `Effect` log.
-/

/-- Bytes of a binary fragment, one `Nat` per byte. -/
abbrev Bytes := List Nat

/-- A JS `Blob`: its byte content and MIME type. -/
structure Blob where
  bytes : Bytes
  mime : String
  deriving DecidableEq

/-- The `MediaRecorder.state` values used by the source
(`recording` after `start()`, `inactive` after `stop()`). -/
inductive RecState where
  | inactive
  | recording
  deriving DecidableEq

/-- A `MediaRecorder` instance, reduced to the state the source reads. -/
structure Recorder where
  state : RecState
  deriving DecidableEq

/-- A `MediaStream`: its tracks, each `true` while live. -/
structure MediaStream where
  tracks : List Bool
  deriving DecidableEq

/-- `stream.getTracks().forEach(track => track.stop())`: every track stops. -/
def stopTracks (m : MediaStream) : MediaStream :=
  { tracks := m.tracks.map fun _ => false }

/-- Externally visible resource effects emitted by the operations. -/
inductive Effect where
  | createURL (h : Nat)
  | revokeURL (h : Nat)
  | stopTrack
  deriving DecidableEq

/-- Whether an action is a playback-handle release (`URL.revokeObjectURL`). -/
def isRevoke : Effect → Bool
  | Effect.revokeURL _ => true
  | _ => false

/-- The decoded JSON body of a successful analyze response
(`{transcription, feedback}` in the API route). -/
structure FeedbackData where
  transcription : String
  feedback : String
  deriving DecidableEq

/-- The state of the `Home` component of src/app/page.js (first variant):
the `useState` hooks and `useRef` cells read or written by the capture and
submission operations. -/
structure HomeState where
  isRecording : Bool
  isProcessing : Bool
  audioBlob : Option Blob
  audioURL : Option Nat
  feedback : Option FeedbackData
  error : Option String
  mediaRecorder : Option Recorder
  mediaStream : Option MediaStream
  audioChunks : List Bytes
  deriving DecidableEq

/-- The component state on first render: every hook at its initial value. -/
def initialHomeState : HomeState :=
  { isRecording := false, isProcessing := false, audioBlob := none, audioURL := none,
    feedback := none, error := none, mediaRecorder := none, mediaStream := none,
    audioChunks := [] }

/-- The synchronous prefix of `startRecording` (page.js lines 32-37):
clears error, artifact, playback URL, feedback and the chunk buffer. -/
def startRecordingBegin (s : HomeState) : HomeState :=
  { s with error := none, audioBlob := none, audioURL := none, feedback := none,
           audioChunks := [] }

/-- The continuation of `startRecording` once `getUserMedia` resolves
(page.js lines 50-89): store the stream, construct the recorder, call
`recorder.start()` and set `isRecording`. -/
def startRecordingGranted (s : HomeState) (m : MediaStream) : HomeState :=
  { s with mediaStream := some m,
           mediaRecorder := some { state := RecState.recording },
           isRecording := true }

/-- The `catch` block of `startRecording` (page.js lines 92-100): record the
error, clear `isRecording` and stop the tracks of whatever stream the ref
holds. -/
def startRecordingFailed (s : HomeState) (msg : String) : HomeState × List Effect :=
  let s1 := { s with error := some ("Could not start recording: " ++ msg),
                     isRecording := false }
  match s.mediaStream with
  | some m => ({ s1 with mediaStream := some (stopTracks m) },
               m.tracks.map fun _ => Effect.stopTrack)
  | none => (s1, [])

/-- The possible resolutions of the device-acquisition boundary inside
`startRecording`: `getUserMedia` resolves with a stream and the rest of the
`try` block succeeds; `getUserMedia` rejects (permission denied or no
device) before any stream is stored; or the `try` block throws after the
stream was already stored in the ref (for example the `MediaRecorder`
constructor rejecting the requested MIME type). -/
inductive StartOutcome where
  | granted (m : MediaStream)
  | denied (msg : String)
  | failedAfterAcquire (m : MediaStream) (msg : String)

/-- `startRecording` as a whole: the synchronous prefix followed by the
resolution of the acquisition boundary. -/
def startRecording (s : HomeState) (o : StartOutcome) : HomeState × List Effect :=
  let s0 := startRecordingBegin s
  match o with
  | StartOutcome.granted m => (startRecordingGranted s0 m, [])
  | StartOutcome.denied msg => startRecordingFailed s0 msg
  | StartOutcome.failedAfterAcquire m msg =>
      startRecordingFailed { s0 with mediaStream := some m } msg

/-- The `ondataavailable` handler (page.js lines 57-61): append the fragment
to the chunk buffer only when its size is positive. -/
def recorderOnData (s : HomeState) (frag : Bytes) : HomeState :=
  if 0 < frag.length then { s with audioChunks := s.audioChunks ++ [frag] } else s

/-- The `onstop` handler (page.js lines 63-74): concatenate the buffered
chunks into a `Blob` of type audio/webm, create an object URL for it, store
both, clear `isRecording` and stop the stream tracks. -/
def recorderOnStop (s : HomeState) (url : Nat) : HomeState × List Effect :=
  let blob : Blob := { bytes := s.audioChunks.flatten, mime := "audio/webm" }
  match s.mediaStream with
  | some m =>
      ({ s with audioBlob := some blob, audioURL := some url, isRecording := false,
                mediaStream := some (stopTracks m) },
       Effect.createURL url :: m.tracks.map fun _ => Effect.stopTrack)
  | none =>
      ({ s with audioBlob := some blob, audioURL := some url, isRecording := false },
       [Effect.createURL url])

/-- The `onerror` handler (page.js lines 76-84): record the device error,
clear `isRecording` and stop the stream tracks. -/
def recorderOnError (s : HomeState) (msg : String) : HomeState × List Effect :=
  let s1 := { s with error := some ("Recording error: " ++ msg), isRecording := false }
  match s.mediaStream with
  | some m => ({ s1 with mediaStream := some (stopTracks m) },
               m.tracks.map fun _ => Effect.stopTrack)
  | none => (s1, [])

/-- `stopRecording` (page.js lines 103-109): call `recorder.stop()` only when
the recorder exists and its state is `recording`; the returned flag is
whether a stop was signalled (the `onstop` event will then fire). -/
def stopRecording (s : HomeState) : HomeState × Bool :=
  match s.mediaRecorder with
  | some r =>
      match r.state with
      | RecState.recording =>
          ({ s with mediaRecorder := some { state := RecState.inactive } }, true)
      | RecState.inactive => (s, false)
  | none => (s, false)

/-- `resetRecording` (page.js lines 145-157): stop the stream tracks if a
stream is held, revoke the object URL if one is held, and clear artifact,
URL, feedback, error and the chunk buffer. -/
def pageResetRecording (s : HomeState) : HomeState × List Effect :=
  let streamActs : List Effect :=
    match s.mediaStream with
    | some m => m.tracks.map fun _ => Effect.stopTrack
    | none => []
  let stream1 : Option MediaStream :=
    match s.mediaStream with
    | some m => some (stopTracks m)
    | none => none
  let urlActs : List Effect :=
    match s.audioURL with
    | some h => [Effect.revokeURL h]
    | none => []
  ({ s with mediaStream := stream1, audioBlob := none, audioURL := none,
            feedback := none, error := none, audioChunks := [] },
   streamActs ++ urlActs)

/-- The synchronous guard of `analyzeRecording` (page.js lines 112-119):
with no artifact it records the error and returns without contacting the
network; with an artifact present (of any size) it sets `isProcessing` and
proceeds to issue the fetch.  The flag is whether the request is issued. -/
def analyzeGuard (s : HomeState) : HomeState × Bool :=
  match s.audioBlob with
  | none => ({ s with error := some "No recording to analyze" }, false)
  | some _ => ({ s with isProcessing := true, error := none }, true)

/-- The resolutions of the network boundary inside a submission: an ok
response with a decoded body; a non-2xx response whose body carries an
optional `error` string field; or the fetch rejecting without reaching the
endpoint (message of the thrown `TypeError`, e.g. Failed to fetch). -/
inductive FetchOutcome where
  | success (d : FeedbackData)
  | httpError (status : Nat) (errField : Option String)
  | networkError (msg : String)

/-- The completion of `analyzeRecording` (page.js lines 130-142): an ok
response stores the decoded body in `feedback`; a non-ok response throws the
fixed string `Failed to analyze recording` which the catch surfaces; a fetch
rejection surfaces its own message; `finally` clears `isProcessing`. -/
def analyzeRecordingComplete (s : HomeState) (o : FetchOutcome) : HomeState :=
  match o with
  | FetchOutcome.success d => { s with feedback := some d, isProcessing := false }
  | FetchOutcome.httpError _ _ =>
      { s with error := some ("Analysis failed: " ++ "Failed to analyze recording"),
               isProcessing := false }
  | FetchOutcome.networkError msg =>
      { s with error := some ("Analysis failed: " ++ msg), isProcessing := false }

/-- Whether the component currently holds a stream with a live track
(the device handle is held). -/
def deviceHeld (s : HomeState) : Bool :=
  match s.mediaStream with
  | some m => m.tracks.any fun t => t
  | none => false

/-- Whether the ref holds a recorder in the `recording` state (the guard
condition of `stopRecording`). -/
def recorderActive (s : HomeState) : Bool :=
  match s.mediaRecorder with
  | some r =>
      match r.state with
      | RecState.recording => true
      | RecState.inactive => false
  | none => false

/-- The state of the `useAudioRecorder` hook
(src/app/hooks/useAudioRecorder.js).  The hook keeps `audioURL` as a string
that is empty until a recording finishes; the empty string is modelled as
`none`, a created object URL as `some` handle. -/
structure HookState where
  isRecording : Bool
  audioURL : Option Nat
  error : Option String
  mediaRecorder : Option Recorder
  stream : Option MediaStream
  chunks : List Bytes
  deriving DecidableEq

/-- The hook state on first render. -/
def initialHookState : HookState :=
  { isRecording := false, audioURL := none, error := none, mediaRecorder := none,
    stream := none, chunks := [] }

/-- The synchronous prefix of the hook `startRecording` (lines 27-28):
clear the error and the chunk buffer. -/
def hookStartBegin (s : HookState) : HookState :=
  { s with error := none, chunks := [] }

/-- The continuation of the hook `startRecording` once `getUserMedia`
resolves (lines 43-75). -/
def hookStartGranted (s : HookState) (m : MediaStream) : HookState :=
  { s with stream := some m,
           mediaRecorder := some { state := RecState.recording },
           isRecording := true }

/-- The `catch` block of the hook `startRecording` (lines 76-84). -/
def hookStartFailed (s : HookState) (msg : String) : HookState × List Effect :=
  let s1 := { s with error := some ("Could not start recording: " ++ msg),
                     isRecording := false }
  match s.stream with
  | some m => ({ s1 with stream := some (stopTracks m) },
               m.tracks.map fun _ => Effect.stopTrack)
  | none => (s1, [])

/-- The hook `startRecording` as a whole: a `denied` outcome also covers the
explicit throw when `navigator.mediaDevices` is absent (lines 30-32), which
likewise lands in the catch block before any stream is stored. -/
def hookStartRecording (s : HookState) (o : StartOutcome) : HookState × List Effect :=
  let s0 := hookStartBegin s
  match o with
  | StartOutcome.granted m => (hookStartGranted s0 m, [])
  | StartOutcome.denied msg => hookStartFailed s0 msg
  | StartOutcome.failedAfterAcquire m msg =>
      hookStartFailed { s0 with stream := some m } msg

/-- The hook `dataavailable` listener (lines 46-50): append only fragments
of positive size. -/
def hookOnData (s : HookState) (frag : Bytes) : HookState :=
  if 0 < frag.length then { s with chunks := s.chunks ++ [frag] } else s

/-- The hook `stop` listener (lines 52-61): build the blob from the chunks,
create and store its object URL, clear `isRecording`, stop the tracks. -/
def hookOnStop (s : HookState) (url : Nat) : HookState × List Effect :=
  match s.stream with
  | some m =>
      ({ s with audioURL := some url, isRecording := false,
                stream := some (stopTracks m) },
       Effect.createURL url :: m.tracks.map fun _ => Effect.stopTrack)
  | none =>
      ({ s with audioURL := some url, isRecording := false }, [Effect.createURL url])

/-- The hook `error` listener (lines 63-71): record the error, clear
`isRecording`, stop the tracks. -/
def hookOnError (s : HookState) (msg : String) : HookState × List Effect :=
  let s1 := { s with error := some ("Recording error: " ++ msg), isRecording := false }
  match s.stream with
  | some m => ({ s1 with stream := some (stopTracks m) },
               m.tracks.map fun _ => Effect.stopTrack)
  | none => (s1, [])

/-- The hook `stopRecording` (lines 87-100): call `stop()` only when the
ref holds a recorder whose state is `recording`. -/
def hookStopRecording (s : HookState) : HookState × Bool :=
  match s.mediaRecorder with
  | some r =>
      match r.state with
      | RecState.recording =>
          ({ s with mediaRecorder := some { state := RecState.inactive } }, true)
      | RecState.inactive => (s, false)
  | none => (s, false)

/-- The hook `resetRecording` (lines 102-108): clear the error; revoke the
object URL only when one is held, then clear it. -/
def hookResetRecording (s : HookState) : HookState × List Effect :=
  let s1 := { s with error := none }
  match s.audioURL with
  | some h => ({ s1 with audioURL := none }, [Effect.revokeURL h])
  | none => (s1, [])

/-- Whether the hook holds a stream with a live track. -/
def hookDeviceHeld (s : HookState) : Bool :=
  match s.stream with
  | some m => m.tracks.any fun t => t
  | none => false

/-- Whether the hook ref holds a recorder in the `recording` state. -/
def hookRecorderActive (s : HookState) : Bool :=
  match s.mediaRecorder with
  | some r =>
      match r.state with
      | RecState.recording => true
      | RecState.inactive => false
  | none => false

/-- Contiguous-sublist test on character lists, the model of the JS
`String.prototype.includes` used by `handleAnalysis`. -/
def hasSubList (pat : List Char) : List Char → Bool
  | [] => pat.isEmpty
  | c :: t => pat.isPrefixOf (c :: t) || hasSubList pat t

/-- `s.includes(pat)` on strings. -/
def strHasSub (s pat : String) : Bool := hasSubList pat.toList s.toList

/-- The state touched by `handleAnalysis` in the third page variant of
src/app/page.js: its feedback, upload-error and in-flight flags. -/
structure AnalysisState where
  feedback : Option FeedbackData
  uploadError : Option String
  isAnalyzing : Bool
  deriving DecidableEq

/-- The message thrown by `handleAnalysis` for a non-ok response
(page.js third variant, lines 631-634): the body `error` field when it is a
non-empty string, otherwise `Server error: <status>`; a body that fails to
parse is replaced by `{error: 'Unknown error occurred'}` beforehand, so it
arrives here as `some "Unknown error occurred"`. -/
def thrownMessage (status : Nat) (errField : Option String) : String :=
  match errField with
  | some e => if e = "" then "Server error: " ++ toString status else e
  | none => "Server error: " ++ toString status

/-- The catch block of `handleAnalysis` (lines 638-643): a message containing
`Failed to fetch` becomes connectivity advice, anything else is surfaced as
`Analysis failed: <message>`. -/
def surfaceAnalysisError (msg : String) : String :=
  if strHasSub msg "Failed to fetch"
  then "Could not connect to the server. Please make sure the backend server is running."
  else "Analysis failed: " ++ msg

/-- The completion of `handleAnalysis`: ok responses store the decoded body;
non-ok responses and fetch rejections surface a message through the catch
block; `finally` clears `isAnalyzing`. -/
def handleAnalysisComplete (s : AnalysisState) (o : FetchOutcome) : AnalysisState :=
  match o with
  | FetchOutcome.success d => { s with feedback := some d, isAnalyzing := false }
  | FetchOutcome.httpError status errField =>
      { s with uploadError := some (surfaceAnalysisError (thrownMessage status errField)),
               isAnalyzing := false }
  | FetchOutcome.networkError msg =>
      { s with uploadError := some (surfaceAnalysisError msg), isAnalyzing := false }

/-- The response of the analyze API route: its HTTP status and the fields of
its JSON body (absent fields are `none`). -/
structure ApiResponse where
  status : Nat
  errorField : Option String
  transcription : Option String
  feedback : Option String
  deriving DecidableEq

/-- The request as the API route sees it: either `request.formData()` throws
(malformed multipart body), or it yields a form whose `audio` field is
absent or holds a file. -/
inductive ApiRequest where
  | malformed
  | form (audio : Option Blob)

/-- The resolution of the processing done after the audio check: both
external calls succeed, yielding a transcription and a feedback text, or
some step throws with a message. -/
inductive ProcessOutcome where
  | ok (transcription : String) (feedback : String)
  | failure (exceptionMsg : String)

/-- The `POST` handler of src/unnamed/part_000: 400 with
`{error: 'No audio file provided'}` when the form has no `audio` field;
200 with `{transcription, feedback}` on success; 500 with the fixed body
`{error: 'Failed to process audio'}` whenever the `try` block throws,
including a malformed form body. -/
def postAnalyze (r : ApiRequest) (p : ProcessOutcome) : ApiResponse :=
  match r with
  | ApiRequest.malformed =>
      { status := 500, errorField := some "Failed to process audio",
        transcription := none, feedback := none }
  | ApiRequest.form none =>
      { status := 400, errorField := some "No audio file provided",
        transcription := none, feedback := none }
  | ApiRequest.form (some _) =>
      match p with
      | ProcessOutcome.ok t f =>
          { status := 200, errorField := none, transcription := some t,
            feedback := some f }
      | ProcessOutcome.failure _ =>
          { status := 500, errorField := some "Failed to process audio",
            transcription := none, feedback := none }

/-- A concrete component state right after a successful recording stopped:
an artifact of three bytes, its playback URL, a stopped recorder and a
stream whose single track has been stopped. -/
def sampleStopped : HomeState :=
  { isRecording := false, isProcessing := false,
    audioBlob := some { bytes := [1, 2, 3], mime := "audio/webm" },
    audioURL := some 0, feedback := none, error := none,
    mediaRecorder := some { state := RecState.inactive },
    mediaStream := some { tracks := [false] },
    audioChunks := [[1, 2, 3]] }

/-- A concrete `handleAnalysis` state with a submission in flight. -/
def sampleAnalysis : AnalysisState :=
  { feedback := none, uploadError := none, isAnalyzing := true }

/-! Helper lemmas. -/

theorem any_id_map_false (l : List Bool) :
    ((l.map fun _ => false).any fun t => t) = false := by
  induction l with
  | nil => rfl
  | cons a t ih => simp

theorem any_revoke_map_stop (l : List Bool) :
    ((l.map fun _ => Effect.stopTrack).any isRevoke) = false := by
  induction l with
  | nil => rfl
  | cons a t ih => simp [isRevoke]

theorem foldData_chunks (frags : List Bytes) (s : HomeState) :
    (frags.foldl recorderOnData s).audioChunks
      = s.audioChunks ++ frags.filter (fun f => decide (0 < f.length)) := by
  induction frags generalizing s with
  | nil => simp
  | cons f t ih =>
      by_cases h : 0 < f.length
      · simp [List.foldl_cons, ih, recorderOnData, h, List.filter_cons,
              List.append_assoc]
      · simp [List.foldl_cons, ih, recorderOnData, h, List.filter_cons]

theorem flatten_filter_pos (frags : List Bytes) :
    (frags.filter (fun f => decide (0 < f.length))).flatten = frags.flatten := by
  induction frags with
  | nil => rfl
  | cons f t ih =>
      cases f with
      | nil => simpa [List.filter_cons] using ih
      | cons a b => simp [List.filter_cons, ih]

theorem onStop_blob (s : HomeState) (url : Nat) :
    ((recorderOnStop s url).1).audioBlob
      = some { bytes := s.audioChunks.flatten, mime := "audio/webm" } := by
  cases h : s.mediaStream <;> simp [recorderOnStop, h]

theorem trace_blob_eq_flatten (s : HomeState) (m : MediaStream) (frags : List Bytes)
    (url : Nat) :
    ((recorderOnStop
        (frags.foldl recorderOnData (startRecordingGranted (startRecordingBegin s) m))
        url).1).audioBlob
      = some { bytes := frags.flatten, mime := "audio/webm" } := by
  have hc : (frags.foldl recorderOnData
      (startRecordingGranted (startRecordingBegin s) m)).audioChunks
      = frags.filter (fun f => decide (0 < f.length)) := by
    simpa [startRecordingGranted, startRecordingBegin] using
      foldData_chunks frags (startRecordingGranted (startRecordingBegin s) m)
  rw [onStop_blob, hc, flatten_filter_pos]

/-- Claim C1: for every sequence of binary fragments delivered by the
capture device while recording, the artifact produced on stop has bytes
equal to the ordered concatenation of those fragments, with no reordering
and no duplication; in particular three fragments of sizes 100, 200 and 50
arriving in that order yield an artifact of 350 bytes laid out as
fragment1 then fragment2 then fragment3. -/
theorem artifact_concat_of_fragments :
    ∀ (s : HomeState) (m : MediaStream) (frags : List Bytes) (url : Nat),
      (((recorderOnStop
          (frags.foldl recorderOnData (startRecordingGranted (startRecordingBegin s) m))
          url).1).audioBlob
        = some { bytes := frags.flatten, mime := "audio/webm" })
    ∧ ∀ (f1 f2 f3 : Bytes), f1.length = 100 → f2.length = 200 → f3.length = 50 →
        (((recorderOnStop
            ([f1, f2, f3].foldl recorderOnData
              (startRecordingGranted (startRecordingBegin s) m))
            url).1).audioBlob
          = some { bytes := f1 ++ f2 ++ f3, mime := "audio/webm" })
        ∧ (f1 ++ f2 ++ f3).length = 350 := by
  intro s m frags url
  refine ⟨trace_blob_eq_flatten s m frags url, ?_⟩
  intro f1 f2 f3 h1 h2 h3
  constructor
  · have h := trace_blob_eq_flatten s m [f1, f2, f3] url
    simpa [List.append_assoc] using h
  · simp [h1, h2, h3]

/-- Witness for C1: the scenario with fragments of sizes 100, 200, 50. -/
theorem artifact_concat_of_fragments_witness :
    (((recorderOnStop
        ([List.replicate 100 7, List.replicate 200 8, List.replicate 50 9].foldl
          recorderOnData
          (startRecordingGranted (startRecordingBegin initialHomeState)
            { tracks := [true] }))
        0).1).audioBlob
      = some { bytes := List.replicate 100 7 ++ List.replicate 200 8
                          ++ List.replicate 50 9,
               mime := "audio/webm" })
    ∧ (List.replicate 100 7 ++ List.replicate 200 8 ++ List.replicate 50 9).length
        = 350 :=
  (artifact_concat_of_fragments initialHomeState { tracks := [true] } [] 0).2
    (List.replicate 100 7) (List.replicate 200 8) (List.replicate 50 9)
    (by simp) (by simp) (by simp)

/-- Claim C2: after every transition to the Failed state (device-access
denial during start, a failure after the stream was acquired, or a
device-level error while recording) the capture device handle is not held:
all tracks of the held stream have been stopped, in both the page component
and the recorder hook. -/
theorem failed_transition_releases_device :
    ∀ (s : HomeState) (hs : HookState) (m : MediaStream) (msg : String),
      deviceHeld (startRecording s (StartOutcome.denied msg)).1 = false
    ∧ deviceHeld (startRecording s (StartOutcome.failedAfterAcquire m msg)).1 = false
    ∧ deviceHeld (recorderOnError s msg).1 = false
    ∧ hookDeviceHeld (hookStartRecording hs (StartOutcome.denied msg)).1 = false
    ∧ hookDeviceHeld (hookStartRecording hs (StartOutcome.failedAfterAcquire m msg)).1
        = false
    ∧ hookDeviceHeld (hookOnError hs msg).1 = false := by
  intro s hs m msg
  refine ⟨?_, ?_, ?_, ?_, ?_, ?_⟩
  · cases h : s.mediaStream <;>
      simp [startRecording, startRecordingBegin, startRecordingFailed, h,
            deviceHeld, stopTracks, any_id_map_false]
  · simp [startRecording, startRecordingBegin, startRecordingFailed,
          deviceHeld, stopTracks, any_id_map_false]
  · cases h : s.mediaStream <;>
      simp [recorderOnError, h, deviceHeld, stopTracks, any_id_map_false]
  · cases h : hs.stream <;>
      simp [hookStartRecording, hookStartBegin, hookStartFailed, h,
            hookDeviceHeld, stopTracks, any_id_map_false]
  · simp [hookStartRecording, hookStartBegin, hookStartFailed,
          hookDeviceHeld, stopTracks, any_id_map_false]
  · cases h : hs.stream <;>
      simp [hookOnError, h, hookDeviceHeld, stopTracks, any_id_map_false]

/-- Claim C3, counterexample: starting from a stopped session with an
artifact, a submission is begun, `resetRecording` then supersedes it, and
the late response still overwrites the current session state: `feedback`
goes from `none` (the value `resetRecording` left) to the stale response
data, so no staleness check protects the current session. -/
theorem stale_response_applied_after_reset_cex :
    (((pageResetRecording ((analyzeGuard sampleStopped).1)).1).feedback = none)
    ∧ ((analyzeRecordingComplete ((pageResetRecording ((analyzeGuard sampleStopped).1)).1)
          (FetchOutcome.success { transcription := "stale", feedback := "stale" })).feedback
        = some { transcription := "stale", feedback := "stale" }) :=
  ⟨rfl, rfl⟩

/-- Claim C3, amended: no staleness check is performed anywhere on the
completion path; a response arriving after `resetRecording` superseded the
request is applied unconditionally, setting `feedback` to the response data
on whatever state the component is then in. -/
theorem stale_response_applied_unconditionally :
    ∀ (s : HomeState) (d : FeedbackData),
      (analyzeRecordingComplete ((pageResetRecording s).1)
          (FetchOutcome.success d)).feedback = some d := by
  intro s d
  rfl

/-- Claim C4, counterexample: on an HTTP 500 response whose body is
`{error: "model unavailable"}`, `analyzeRecording` surfaces the fixed
message `Analysis failed: Failed to analyze recording`, which does not
carry the server-supplied message. -/
theorem server_error_message_not_propagated_cex :
    ((analyzeRecordingComplete ((analyzeGuard sampleStopped).1)
        (FetchOutcome.httpError 500 (some "model unavailable"))).error
      = some ("Analysis failed: " ++ "Failed to analyze recording"))
    ∧ strHasSub ("Analysis failed: " ++ "Failed to analyze recording")
        "model unavailable" = false := by
  exact ⟨rfl, by decide⟩

/-- Claim C4, amended: only `handleAnalysis` (third page variant) propagates
the server-supplied error message of a non-2xx response, surfacing it as
`Analysis failed: <message>` when the message is non-empty and does not
contain `Failed to fetch`; `analyzeRecording` (first page variant) instead
fails with the fixed message `Failed to analyze recording`, discarding the
server-supplied one. -/
theorem server_error_message_propagation :
    ∀ (a : AnalysisState) (status : Nat) (e : String),
      e ≠ "" → strHasSub e "Failed to fetch" = false →
      ((handleAnalysisComplete a (FetchOutcome.httpError status (some e))).uploadError
        = some ("Analysis failed: " ++ e))
      ∧ ∀ (s : HomeState) (status2 : Nat) (body : Option String),
          (analyzeRecordingComplete s (FetchOutcome.httpError status2 body)).error
            = some ("Analysis failed: " ++ "Failed to analyze recording") := by
  intro a status e h1 h2
  constructor
  · simp [handleAnalysisComplete, thrownMessage, h1, surfaceAnalysisError, h2]
  · intro s status2 body
    rfl

/-- Witness for the amended C4 at the scenario of the claim: status 500 and
server body `{error: "model unavailable"}`. -/
theorem server_error_message_propagation_witness :
    ((handleAnalysisComplete sampleAnalysis
        (FetchOutcome.httpError 500 (some "model unavailable"))).uploadError
      = some ("Analysis failed: " ++ "model unavailable"))
    ∧ ((analyzeRecordingComplete sampleStopped
          (FetchOutcome.httpError 500 (some "model unavailable"))).error
        = some ("Analysis failed: " ++ "Failed to analyze recording")) :=
  ⟨(server_error_message_propagation sampleAnalysis 500 "model unavailable"
      (by decide) (by decide)).1,
   (server_error_message_propagation sampleAnalysis 500 "model unavailable"
      (by decide) (by decide)).2 sampleStopped 500 (some "model unavailable")⟩

/-- Claim C5, counterexample: a recording that stops before any fragment
arrives produces a zero-byte artifact, and `analyzeRecording` still issues
the network request for it instead of failing first. -/
theorem empty_artifact_submitted_cex :
    (((recorderOnStop
        ((stopRecording
            ((startRecording initialHomeState
                (StartOutcome.granted { tracks := [true] })).1)).1)
        0).1).audioBlob
      = some { bytes := [], mime := "audio/webm" })
    ∧ ((analyzeGuard
          ((recorderOnStop
              ((stopRecording
                  ((startRecording initialHomeState
                      (StartOutcome.granted { tracks := [true] })).1)).1)
              0).1)).2 = true) :=
  ⟨rfl, rfl⟩

/-- Claim C5, amended: the guard of `analyzeRecording` checks only that an
artifact exists: when `audioBlob` is null the call fails with
`No recording to analyze` and no request is issued; whenever an artifact is
present, including a zero-byte one, the request is issued. -/
theorem submit_guard_checks_presence_only :
    ∀ (s : HomeState) (b : Blob),
      (s.audioBlob = none →
        analyzeGuard s = ({ s with error := some "No recording to analyze" }, false))
    ∧ (s.audioBlob = some b →
        (analyzeGuard s).2 = true ∧ ((analyzeGuard s).1).isProcessing = true) := by
  intro s b
  constructor
  · intro h
    simp [analyzeGuard, h]
  · intro h
    simp [analyzeGuard, h]

/-- Witness for the amended C5: the null-artifact branch on the initial
state and the issued branch on a stopped session. -/
theorem submit_guard_checks_presence_only_witness :
    (analyzeGuard initialHomeState
      = ({ initialHomeState with error := some "No recording to analyze" }, false))
    ∧ ((analyzeGuard sampleStopped).2 = true
        ∧ ((analyzeGuard sampleStopped).1).isProcessing = true) :=
  ⟨(submit_guard_checks_presence_only initialHomeState
      { bytes := [], mime := "audio/webm" }).1 rfl,
   (submit_guard_checks_presence_only sampleStopped
      { bytes := [1, 2, 3], mime := "audio/webm" }).2 rfl⟩

/-- Claim C6: calling stop while the session is not recording (no recorder
yet, or a recorder whose state is not `recording`) is a no-op and not an
error: the whole state, in particular the artifact, is unchanged and no
stop is signalled, in both the page component and the recorder hook. -/
theorem stop_outside_recording_noop :
    ∀ (s : HomeState) (hs : HookState),
      (recorderActive s = false → stopRecording s = (s, false))
    ∧ (hookRecorderActive hs = false → hookStopRecording hs = (hs, false)) := by
  intro s hs
  constructor
  · intro h
    cases hr : s.mediaRecorder with
    | none => simp [stopRecording, hr]
    | some r =>
        cases hst : r.state with
        | inactive => simp [stopRecording, hr, hst]
        | recording => simp [recorderActive, hr, hst] at h
  · intro h
    cases hr : hs.mediaRecorder with
    | none => simp [hookStopRecording, hr]
    | some r =>
        cases hst : r.state with
        | inactive => simp [hookStopRecording, hr, hst]
        | recording => simp [hookRecorderActive, hr, hst] at h

/-- Witness for C6: stop on the freshly rendered component and hook. -/
theorem stop_outside_recording_noop_witness :
    stopRecording initialHomeState = (initialHomeState, false)
    ∧ hookStopRecording initialHookState = (initialHookState, false) :=
  ⟨(stop_outside_recording_noop initialHomeState initialHookState).1 rfl,
   (stop_outside_recording_noop initialHomeState initialHookState).2 rfl⟩

/-- Claim C7: reset is idempotent: from any state, a second reset yields
exactly the state the first one produced, and the second call emits no
playback-handle revocation (no double-release of the object URL), in both
the page component and the recorder hook. -/
theorem reset_idempotent_no_double_release :
    ∀ (s : HomeState) (hs : HookState),
      ((pageResetRecording ((pageResetRecording s).1)).1 = (pageResetRecording s).1)
    ∧ (((pageResetRecording ((pageResetRecording s).1)).2).any isRevoke = false)
    ∧ ((hookResetRecording ((hookResetRecording hs).1)).1 = (hookResetRecording hs).1)
    ∧ ((hookResetRecording ((hookResetRecording hs).1)).2 = []) := by
  intro s hs
  refine ⟨?_, ?_, ?_, ?_⟩
  · cases h : s.mediaStream <;>
      simp [pageResetRecording, h, stopTracks, List.map_map, Function.comp]
  · cases h : s.mediaStream <;>
      simp [pageResetRecording, h, any_revoke_map_stop, isRevoke]
  · cases h : hs.audioURL <;> simp [hookResetRecording, h]
  · cases h : hs.audioURL <;> simp [hookResetRecording, h]

/-- Claim C8: when the network request of a submission never reaches the
endpoint, the submission fails with the fetch error surfaced as
`Analysis failed: <message>` and the session keeps its pre-submission
artifact, playback handle, recording state, stream and chunk buffer, so the
same submission can be retried (the guard issues the request again). -/
theorem network_error_preserves_session :
    ∀ (s : HomeState) (b : Blob) (msg : String), s.audioBlob = some b →
      ((analyzeRecordingComplete ((analyzeGuard s).1)
          (FetchOutcome.networkError msg)).audioBlob = s.audioBlob)
    ∧ ((analyzeRecordingComplete ((analyzeGuard s).1)
          (FetchOutcome.networkError msg)).audioURL = s.audioURL)
    ∧ ((analyzeRecordingComplete ((analyzeGuard s).1)
          (FetchOutcome.networkError msg)).isRecording = s.isRecording)
    ∧ ((analyzeRecordingComplete ((analyzeGuard s).1)
          (FetchOutcome.networkError msg)).audioChunks = s.audioChunks)
    ∧ ((analyzeRecordingComplete ((analyzeGuard s).1)
          (FetchOutcome.networkError msg)).mediaStream = s.mediaStream)
    ∧ ((analyzeRecordingComplete ((analyzeGuard s).1)
          (FetchOutcome.networkError msg)).error
        = some ("Analysis failed: " ++ msg))
    ∧ ((analyzeRecordingComplete ((analyzeGuard s).1)
          (FetchOutcome.networkError msg)).isProcessing = false)
    ∧ ((analyzeGuard (analyzeRecordingComplete ((analyzeGuard s).1)
          (FetchOutcome.networkError msg))).2 = true) := by
  intro s b msg h
  refine ⟨?_, ?_, ?_, ?_, ?_, ?_, ?_, ?_⟩ <;>
    simp [analyzeGuard, h, analyzeRecordingComplete]

/-- Witness for C8: a connection-refused fetch on a stopped session. -/
theorem network_error_preserves_session_witness :
    ((analyzeRecordingComplete ((analyzeGuard sampleStopped).1)
        (FetchOutcome.networkError "Failed to fetch")).audioBlob
      = sampleStopped.audioBlob)
    ∧ ((analyzeRecordingComplete ((analyzeGuard sampleStopped).1)
          (FetchOutcome.networkError "Failed to fetch")).error
        = some ("Analysis failed: " ++ "Failed to fetch")) :=
  ⟨(network_error_preserves_session sampleStopped
      { bytes := [1, 2, 3], mime := "audio/webm" } "Failed to fetch" rfl).1,
   (network_error_preserves_session sampleStopped
      { bytes := [1, 2, 3], mime := "audio/webm" } "Failed to fetch"
      rfl).2.2.2.2.2.1⟩

/-- Claim C9: a zero-size device fragment is discarded: delivering it leaves
the chunk buffer (and the whole state) unchanged, and the invariant that
every buffered chunk is non-empty is preserved by every delivery, so the
final artifact is assembled only from non-empty fragments; likewise in the
recorder hook. -/
theorem zero_size_fragment_discarded :
    ∀ (s : HomeState) (hs : HookState) (frag : Bytes),
      (recorderOnData s [] = s)
    ∧ ((s.audioChunks.all fun c => decide (0 < c.length)) = true →
        ((recorderOnData s frag).audioChunks.all fun c => decide (0 < c.length)) = true)
    ∧ (hookOnData hs [] = hs)
    ∧ ((hs.chunks.all fun c => decide (0 < c.length)) = true →
        ((hookOnData hs frag).chunks.all fun c => decide (0 < c.length)) = true) := by
  intro s hs frag
  refine ⟨?_, ?_, ?_, ?_⟩
  · simp [recorderOnData]
  · intro h
    by_cases hf : 0 < frag.length
    · simp [recorderOnData, hf, List.all_append, h, hf]
    · simpa [recorderOnData, hf] using h
  · simp [hookOnData]
  · intro h
    by_cases hf : 0 < frag.length
    · simp [hookOnData, hf, List.all_append, h, hf]
    · simpa [hookOnData, hf] using h

/-- Witness for C9: a non-empty fragment delivered to the initial states
keeps every buffered chunk non-empty. -/
theorem zero_size_fragment_discarded_witness :
    (((recorderOnData initialHomeState [5]).audioChunks.all
        fun c => decide (0 < c.length)) = true)
    ∧ (((hookOnData initialHookState [5]).chunks.all
          fun c => decide (0 < c.length)) = true) :=
  ⟨(zero_size_fragment_discarded initialHomeState initialHookState [5]).2.1 (by decide),
   (zero_size_fragment_discarded initialHomeState initialHookState
      [5]).2.2.2 (by decide)⟩

/-- Claim C10: the analyze API route returns a JSON `error` string on every
failure path and only then: 400 with `No audio file provided` when the form
has no audio field, 500 with the fixed body `Failed to process audio` for a
malformed form body and for every processing failure, with a body
independent of the thrown exception message; a success response carries no
error field, and the error field is absent exactly on status 200. -/
theorem post_analyze_error_contract :
    ∀ (b : Blob) (p : ProcessOutcome) (m1 m2 t f : String) (r : ApiRequest),
      (postAnalyze (ApiRequest.form none) p
        = { status := 400, errorField := some "No audio file provided",
            transcription := none, feedback := none })
    ∧ (postAnalyze (ApiRequest.form (some b)) (ProcessOutcome.failure m1)
        = { status := 500, errorField := some "Failed to process audio",
            transcription := none, feedback := none })
    ∧ (postAnalyze (ApiRequest.form (some b)) (ProcessOutcome.failure m1)
        = postAnalyze (ApiRequest.form (some b)) (ProcessOutcome.failure m2))
    ∧ (postAnalyze ApiRequest.malformed p
        = { status := 500, errorField := some "Failed to process audio",
            transcription := none, feedback := none })
    ∧ (postAnalyze (ApiRequest.form (some b)) (ProcessOutcome.ok t f)
        = { status := 200, errorField := none, transcription := some t,
            feedback := some f })
    ∧ ((postAnalyze r p).errorField = none ↔ (postAnalyze r p).status = 200) := by
  intro b p m1 m2 t f r
  refine ⟨rfl, rfl, rfl, rfl, rfl, ?_⟩
  cases r with
  | malformed => simp [postAnalyze]
  | form a =>
      cases a with
      | none => simp [postAnalyze]
      | some blob => cases p <;> simp [postAnalyze]

/-- Witness for C10: the success branch has status 200, recovered from the
error-field equivalence. -/
theorem post_analyze_error_contract_witness :
    (postAnalyze (ApiRequest.form (some { bytes := [1], mime := "audio/webm" }))
        (ProcessOutcome.ok "t" "f")).status = 200 :=
  (post_analyze_error_contract { bytes := [1], mime := "audio/webm" }
      (ProcessOutcome.ok "t" "f") "m1" "m2" "t" "f"
      (ApiRequest.form (some { bytes := [1], mime := "audio/webm" }))).2.2.2.2.2.mp rfl
